import Mathlib

/-!
Shallow embedding of `src/geojson_rewind_app.py` (GeoJSON winding-order
checker / rewinder).  Python floats are modelled as `ℚ`: every concrete
value the development touches is exactly representable, and the program
performs only field arithmetic and comparisons on them.  Python dicts that
the code inspects are modelled by structures whose optional keys are
`Option` fields; exceptions are modelled by `Except String`.
-/

namespace GeojsonRewind

/-- Winding classification produced by the analyzer (the Python strings
`"Counterclockwise"`, `"Clockwise"`, `"Unknown"`). -/
inductive Winding where
  | counterclockwise
  | clockwise
  | unknown
deriving DecidableEq, Repr

/-- A GeoJSON position: in the source, any list of numbers (the code never
checks its arity up front; `zip(*coords)` discovers it). -/
abbrev Point := List ℚ

/-- A ring: an ordered list of positions. -/
abbrev Ring := List Point

/-- A feature's `geometry` value, as far as the program inspects it.
`geom["type"]` is read first; `untyped` models a mapping with no `"type"`
key — in particular the `{}` default that `feature.get("geometry", {})`
produces for a feature with no geometry.  For the Polygon / MultiPolygon
types the `coordinates` field models the JSON value under the
`"coordinates"` key: the outer `Option` is `none` when the key is absent
(lines 64/66 then raise `KeyError`), the inner `Option` is `none` when
the value is not iterable (the `for` loops over it, lines 66 and 69,
then raise `TypeError`), and for MultiPolygon each member is again
`none` when it is not iterable (`rings.extend(p)`, line 67, then raises
`TypeError`).  The rings themselves and their points are consumed only
inside the per-ring `try` of lines 70-89, whose failures are all caught,
so they are typed as plain lists (an unpack-failing ring stands for any
malformed ring value). -/
inductive Geometry where
  | polygon (coordinates : Option (Option (List Ring)))
  | multiPolygon (coordinates : Option (Option (List (Option (List Ring)))))
  | other (gtype : String)
  | untyped
deriving DecidableEq, Repr

/-- A feature: a geometry plus an opaque `properties` value, which the code
passes through without inspecting (modelled as a `String` token). -/
structure Feature where
  geometry : Geometry
  properties : String
deriving DecidableEq, Repr

/-- A document: `geojson.get("features", [])` — the `features` key may be
absent (`none`). -/
structure Doc where
  features : Option (List Feature)
deriving DecidableEq, Repr

/-- One entry of the `results` list built by `check_winding_and_geometry`. -/
structure RingAnalysis where
  properties : String
  winding : Winding
  valid : Bool
  validity_msg : String
  area : ℚ
  length : ℚ
deriving DecidableEq, Repr

/-- What `shapely.geometry.shape` + `explain_validity` return for a geometry
when construction succeeds.  Shapely is an external library, so the
development is parametric in this function; `Except.error e` models
`shape(geom)` raising with message `str(e)`. -/
structure ShapeInfo where
  is_valid : Bool
  invalid_reason : String
  area : ℚ
  length : ℚ
deriving DecidableEq, Repr

/-- The shapely `shape` oracle the analyzer is parametrised by. -/
abbrev ShapeFn := Geometry → Except String ShapeInfo

/-- Lines 48-60 of the source: the per-feature validity / stats block.
On success, `valid = shp.is_valid`, the message is `"Valid"` or
`explain_validity(shp)`, and `stats` gets `area` / `length`; on an
exception, `valid = False`, the message is `str(e)`, and `stats` stays
empty so the later `stats.get("area", 0)` / `stats.get("length", 0)`
yield `0`. -/
structure FeatStats where
  valid : Bool
  validity_msg : String
  area : ℚ
  length : ℚ
deriving DecidableEq, Repr

def featureStats (shp : ShapeFn) (geom : Geometry) : FeatStats :=
  match shp geom with
  | .ok info =>
      { valid := info.is_valid
        validity_msg := if info.is_valid then "Valid" else info.invalid_reason
        area := info.area
        length := info.length }
  | .error e =>
      { valid := false, validity_msg := e, area := 0, length := 0 }

/-- Success condition of `x, y = zip(*coords)`: `zip(*coords)` produces
`min (len p)` tuples over the points `p`, and unpacking into exactly two
names succeeds iff that minimum is `2` — i.e. every point has at least two
entries and some point has exactly two. -/
def unpack_xy_ok (coords : Ring) : Bool :=
  coords.all (fun p => 2 ≤ p.length) && coords.any (fun p => p.length == 2)

/-- `x[i]` after the unpack: the first entry of the `i`-th point. -/
def xcoord (coords : Ring) (i : Nat) : ℚ := (coords.getD i []).getD 0 0

/-- `y[i]` after the unpack: the second entry of the `i`-th point. -/
def ycoord (coords : Ring) (i : Nat) : ℚ := (coords.getD i []).getD 1 0

/-- Lines 39-41: `calculate_signed_area(coords)`.  `none` models the
function raising (the `x, y = zip(*coords)` unpack failing); otherwise
`0.5 * sum(x[i]*y[i+1] - x[i+1]*y[i] for i in range(len(coords) - 1))`. -/
def calculate_signed_area (coords : Ring) : Option ℚ :=
  if unpack_xy_ok coords then
    some ((1/2) * ((List.range (coords.length - 1)).map
      (fun i => xcoord coords i * ycoord coords (i+1)
        - xcoord coords (i+1) * ycoord coords i)).sum)
  else none

/-- Lines 62-69: ring extraction.  Reading `geom["type"]` on a mapping
without a `"type"` key raises `KeyError`; so does `geom["coordinates"]`
(lines 64/66) when the `"coordinates"` key is absent; iterating a
non-iterable coordinates value (line 66, or line 69 for Polygon) or
extending by a non-iterable MultiPolygon member (line 67) raises
`TypeError`.  All of these are uncaught — modelled by `Except.error`. -/
def extractRings : Geometry → Except String (List Ring)
  | .untyped => .error "KeyError: type"
  | .polygon none => .error "KeyError: coordinates"
  | .polygon (some none) => .error "TypeError: not iterable"
  | .polygon (some (some cs)) => .ok cs
  | .multiPolygon none => .error "KeyError: coordinates"
  | .multiPolygon (some none) => .error "TypeError: not iterable"
  | .multiPolygon (some (some ps)) =>
      if ps.all (fun p => p.isSome) then .ok ((ps.filterMap (fun p => p)).flatten)
      else .error "TypeError: not iterable"
  | .other _ => .ok []

/-- Lines 69-89: the per-ring body of the loop.  A successful
`calculate_signed_area` yields the feature-level stats with the winding
classification; an exception in it yields the fixed `Unknown` record. -/
def analyze_ring (props : String) (st : FeatStats) (ring : Ring) : RingAnalysis :=
  match calculate_signed_area ring with
  | some signed_area =>
      { properties := props
        winding := if signed_area > 0 then .counterclockwise else .clockwise
        valid := st.valid
        validity_msg := st.validity_msg
        area := st.area
        length := st.length }
  | none =>
      { properties := props
        winding := .unknown
        valid := false
        validity_msg := "Error calculating area"
        area := 0
        length := 0 }

/-- All analyses a single feature contributes (in ring order), when ring
extraction succeeds. -/
def featureAnalyses (shp : ShapeFn) (f : Feature) (rings : List Ring) :
    List RingAnalysis :=
  rings.map (analyze_ring f.properties (featureStats shp f.geometry))

/-- The `for feature in ...` loop of `check_winding_and_geometry`,
accumulating `results`; an uncaught exception aborts the whole call. -/
def checkLoop (shp : ShapeFn) : List Feature → List RingAnalysis →
    Except String (List RingAnalysis)
  | [], acc => .ok acc
  | f :: rest, acc =>
      match extractRings f.geometry with
      | .error e => .error e
      | .ok rings => checkLoop shp rest (acc ++ featureAnalyses shp f rings)

/-- Lines 43-90: `check_winding_and_geometry(geojson)`.  A document with no
`features` key is processed as the empty feature list. -/
def check_winding_and_geometry (shp : ShapeFn) (doc : Doc) :
    Except String (List RingAnalysis) :=
  checkLoop shp (doc.features.getD []) []

/-- Line 125 / 158: `sum(1 for r in results if r["winding"] == "Clockwise")`. -/
def clockwise_count (results : List RingAnalysis) : Nat :=
  (results.filter (fun r => r.winding == .clockwise)).length

/-- Line 126 / 159: `sum(1 for r in results if not r["valid"])`. -/
def invalid_count (results : List RingAnalysis) : Nat :=
  (results.filter (fun r => !r.valid)).length

/-- Lines 131 / 160: the rewind decision
`(force_ccw and clockwise_count > 0) or (not force_ccw and clockwise_count < len(results))`. -/
def should_rewind (force_ccw : Bool) (cw total : Nat) : Bool :=
  (force_ccw && decide (cw > 0)) || (!force_ccw && decide (cw < total))

/-- Modelled from the spec: the per-ring step of `rewind`, which the app
imports from the `geojson_rewind` package; that package's source is not
under `src/`.  Per the spec, a ring's vertex order is "reversed wherever
necessary" so that the ring follows its desired orientation, orientation
being the analyzer's classification (positive signed area ⇔
counterclockwise); a ring whose signed area cannot be computed is left
unchanged. -/
def rewind_ring (want_ccw : Bool) (r : Ring) : Ring :=
  match calculate_signed_area r with
  | none => r
  | some a => if decide (a > 0) == want_ccw then r else r.reverse

/-- Modelled from the spec: orientation assignment inside one polygon —
the exterior (first) ring gets the desired orientation, interior holes the
opposite one (RFC 7946 when the desired orientation is counterclockwise,
the inverse convention otherwise). -/
def rewind_rings (desired_ccw : Bool) : List Ring → List Ring
  | [] => []
  | outer :: holes =>
      rewind_ring desired_ccw outer :: holes.map (rewind_ring (!desired_ccw))

/-- Modelled from the spec: `rewind` handles `Polygon` and `MultiPolygon`
geometries; other geometry types pass through unchanged.  The spec gives
no behavior for a polygon whose coordinates are absent or not iterable,
so those (and their non-iterable MultiPolygon members) pass through. -/
def rewind_geometry (desired_ccw : Bool) : Geometry → Geometry
  | .polygon (some (some cs)) => .polygon (some (some (rewind_rings desired_ccw cs)))
  | .multiPolygon (some (some ps)) =>
      .multiPolygon (some (some (ps.map (fun p => p.map (rewind_rings desired_ccw)))))
  | g => g

/-- Modelled from the spec: `rewind(doc, rfc7946=...)` — a pure transform
returning a new document with ring vertex order corrected; properties,
non-geometry fields and ordering are preserved. -/
def rewind (doc : Doc) (rfc7946 : Bool) : Doc :=
  { features := doc.features.map (fun fs =>
      fs.map (fun f => { f with geometry := rewind_geometry rfc7946 f.geometry })) }

/-- One entry of the batch: a file name and the outcome of `json.load`
(`Except.error` models the parse raising). -/
structure BatchItem where
  fname : String
  parsed : Except String Doc

/-- The sidebar label, used both as `desired_winding` in output names. -/
def desired_winding_label (force_ccw : Bool) : String :=
  if force_ccw then "Counterclockwise" else "Clockwise"

/-- Python `str.replace`, character-list worker: replace every
non-overlapping occurrence of `pat` (nonempty), scanning left to right.
The fuel argument is the length of the scanned list; it only ever
decreases to the structurally smaller remainder. -/
def pyReplaceGo (pat rep : List Char) : Nat → List Char → List Char
  | _, [] => []
  | 0, s => s
  | fuel + 1, c :: rest =>
      if pat.isPrefixOf (c :: rest) then
        rep ++ pyReplaceGo pat rep fuel ((c :: rest).drop pat.length)
      else
        c :: pyReplaceGo pat rep fuel rest

/-- Python `s.replace(pat, rep)` for a nonempty pattern. -/
def pyReplace (s pat rep : String) : String :=
  ⟨pyReplaceGo pat.data rep.data s.data.length s.data⟩

/-- Python `s.lower()` (adequate for the ASCII file names at issue). -/
def pyLower (s : String) : String := ⟨s.data.map Char.toLower⟩

/-- Line 152: `fname.lower().endswith(".geojson")`. -/
def is_geojson_name (fname : String) : Bool :=
  ".geojson".data.isSuffixOf (pyLower fname).data

/-- Line 164: `fname.replace(".geojson", f"_{desired_winding}.geojson")` —
Python `str.replace` replaces every occurrence of the case-sensitive
pattern, wherever it occurs in the name. -/
def out_name (force_ccw : Bool) (fname : String) : String :=
  pyReplace fname ".geojson" ("_" ++ desired_winding_label force_ccw ++ ".geojson")

/-- Line 165: the per-file success log line. -/
def log_line_ok (fname : String) (cw inv : Nat) (sr : Bool) : String :=
  fname ++ ": " ++ toString cw ++ " clockwise, " ++ toString inv ++
    " invalid, " ++ (if sr then "rewound" else "unchanged")

/-- Lines 154-167: the body of the per-file `try`/`except`.  Returns the
optional `(output name, output document)` pair appended to
`corrected_files` and the line appended to `log`.  Any exception inside
the block — the JSON parse or `check_winding_and_geometry` raising — lands
in the `except` branch with an `ERROR` line. -/
def process_file (shp : ShapeFn) (force_ccw : Bool) (item : BatchItem) :
    Option (String × Doc) × String :=
  match item.parsed with
  | .error e => (none, item.fname ++ ": ERROR - " ++ e)
  | .ok data =>
      match check_winding_and_geometry shp data with
      | .error e => (none, item.fname ++ ": ERROR - " ++ e)
      | .ok results =>
          let cw := clockwise_count results
          let inv := invalid_count results
          let sr := should_rewind force_ccw cw results.length
          let data2 := if sr then rewind data force_ccw else data
          (some (out_name force_ccw item.fname, data2), log_line_ok item.fname cw inv sr)

/-- Lines 150-167: the batch loop.  Only files whose lowercased name ends
in `.geojson` are processed; each processed file appends at most one entry
to `corrected_files` and exactly one line to `log`. -/
def process_batch (shp : ShapeFn) (force_ccw : Bool) (items : List BatchItem) :
    List (String × Doc) × List String :=
  items.foldl
    (fun acc item =>
      if is_geojson_name item.fname then
        (acc.1 ++ (process_file shp force_ccw item).1.toList,
         acc.2 ++ [(process_file shp force_ccw item).2])
      else acc)
    ([], [])

/-- The rings a geometry contributes when extraction succeeds. -/
def geometryRings : Geometry → List Ring
  | .polygon (some (some cs)) => cs
  | .multiPolygon (some (some ps)) => (ps.filterMap (fun p => p)).flatten
  | _ => []

/-- Whether ring extraction (lines 62-69) completes without raising: the
geometry mapping has a `"type"` key and, when the type is Polygon or
MultiPolygon, a `"coordinates"` key holding an iterable whose members
(for MultiPolygon) are iterable too. -/
def extractableGeom : Geometry → Bool
  | .untyped => false
  | .polygon none => false
  | .polygon (some none) => false
  | .polygon (some (some _)) => true
  | .multiPolygon none => false
  | .multiPolygon (some none) => false
  | .multiPolygon (some (some ps)) => ps.all (fun p => p.isSome)
  | .other _ => true

/-- All rings of a document, in extraction order. -/
def docRings (doc : Doc) : List Ring :=
  (doc.features.getD []).flatMap (fun f => geometryRings f.geometry)

/-! ### Concrete fixtures -/

/-- A shapely oracle whose construction always succeeds with a valid shape. -/
def shapeTriv : ShapeFn := fun _ => .ok ⟨true, "", 0, 0⟩

/-- A shapely oracle whose construction always raises. -/
def shapeErr : ShapeFn := fun _ => .error "Invalid geometry"

/-- The reference square of the spec, counterclockwise. -/
def refSquare : Ring := [[0, 0], [1, 0], [1, 1], [0, 1], [0, 0]]

/-- A degenerate (collinear) closed ring with signed area exactly `0` that
is not a palindrome. -/
def zeroAreaRing : Ring := [[0, 0], [1, 1], [2, 2], [0, 0]]

/-- A one-feature document and the record its square produces under the
always-raising shapely oracle. -/
def docW : Doc := ⟨some [⟨.polygon (some (some [refSquare])), "p"⟩]⟩

def recW : RingAnalysis :=
  ⟨"p", .counterclockwise, false, "Invalid geometry", 0, 0⟩

/-! ### Helper lemmas -/

/-- A `List.range`-indexed sum is the corresponding `Finset.range` sum. -/
lemma sum_range_map {M : Type} [AddCommMonoid M] (f : ℕ → M) (n : ℕ) :
    ((List.range n).map f).sum = ∑ i in Finset.range n, f i := by
  induction n with
  | zero => simp
  | succ n ih =>
      rw [List.range_succ, List.map_append, List.sum_append, ih,
        Finset.sum_range_succ]
      simp

/-- Reversing a ring does not change whether `x, y = zip(*coords)` succeeds. -/
lemma unpack_xy_ok_reverse (coords : Ring) :
    unpack_xy_ok coords.reverse = unpack_xy_ok coords := by
  simp [unpack_xy_ok]

/-- Reversing the point order negates the shoelace sum. -/
lemma signed_sum_reverse (coords : Ring) :
    (∑ i in Finset.range (coords.length - 1),
      (xcoord coords.reverse i * ycoord coords.reverse (i + 1)
        - xcoord coords.reverse (i + 1) * ycoord coords.reverse i))
    = - ∑ i in Finset.range (coords.length - 1),
      (xcoord coords i * ycoord coords (i + 1)
        - xcoord coords (i + 1) * ycoord coords i) := by
  have key : ∀ i ∈ Finset.range (coords.length - 1),
      (xcoord coords.reverse i * ycoord coords.reverse (i + 1)
        - xcoord coords.reverse (i + 1) * ycoord coords.reverse i)
      = (fun j => -(xcoord coords j * ycoord coords (j + 1)
          - xcoord coords (j + 1) * ycoord coords j))
          ((coords.length - 1) - 1 - i) := by
    intro i hi
    rw [Finset.mem_range] at hi
    have h1 : i < coords.length := by omega
    have h2 : i + 1 < coords.length := by omega
    simp only [xcoord, ycoord, List.getD_eq_getElem?_getD,
      List.getElem?_reverse h1, List.getElem?_reverse h2]
    have e1 : coords.length - 1 - (i + 1) = coords.length - 1 - 1 - i := by
      omega
    have e2 : coords.length - 1 - 1 - i + 1 = coords.length - 1 - i := by
      omega
    rw [e1, e2]
    ring
  rw [Finset.sum_congr rfl key,
    Finset.sum_range_reflect (fun j => -(xcoord coords j * ycoord coords (j + 1)
      - xcoord coords (j + 1) * ycoord coords j)) (coords.length - 1)]
  exact Finset.sum_neg_distrib

/-- `calculate_signed_area` on a reversed ring: same success condition,
negated value. -/
lemma calculate_signed_area_reverse (coords : Ring) :
    calculate_signed_area coords.reverse
      = (calculate_signed_area coords).map (fun a => -a) := by
  unfold calculate_signed_area
  by_cases h : unpack_xy_ok coords
  · simp only [unpack_xy_ok_reverse, h, if_true, List.length_reverse,
      sum_range_map, signed_sum_reverse, Option.map_some']
    rw [mul_neg]
  · simp [unpack_xy_ok_reverse, h]

/-- `rewind_ring` is idempotent except on a ring whose signed area is
exactly `0` while the slot demands counterclockwise orientation. -/
lemma rewind_ring_idem (want : Bool) (r : Ring)
    (h : want = false ∨ calculate_signed_area r ≠ some 0) :
    rewind_ring want (rewind_ring want r) = rewind_ring want r := by
  cases hc : calculate_signed_area r with
  | none =>
      unfold rewind_ring
      simp [hc]
  | some a =>
      by_cases hm : (decide (a > 0) == want) = true
      · unfold rewind_ring
        simp [hc, hm]
      · have h1 : rewind_ring want r = r.reverse := by
          unfold rewind_ring
          simp [hc, hm]
        have hrev : calculate_signed_area r.reverse = some (-a) := by
          rw [calculate_signed_area_reverse, hc, Option.map_some']
        have haz : a ≠ 0 := by
          rcases h with h | h
          · intro h0
            subst h0
            simp [h] at hm
          · intro h0
            apply h
            rw [hc, h0]
        have hflip : (decide (-a > 0) == want) = true := by
          rcases lt_trichotomy a 0 with hlt | heq | hgt
          · have hna : ¬ a > 0 := by linarith
            have hw : want = true := by
              cases want <;> simp [hna] at hm ⊢
            have hpos : -a > 0 := by linarith
            simp [hw, hpos]
          · exact absurd heq haz
          · have hna : ¬ (-a > 0) := by linarith
            have hw : want = false := by
              cases want <;> simp [hgt] at hm ⊢
            simp [hw, hna]
        rw [h1]
        unfold rewind_ring
        simp only [hrev, hflip]
        simp

lemma extractRings_ok (g : Geometry) (h : extractableGeom g = true) :
    extractRings g = .ok (geometryRings g) := by
  cases g with
  | polygon co =>
      match co with
      | none => simp [extractableGeom] at h
      | some none => simp [extractableGeom] at h
      | some (some cs) => rfl
  | multiPolygon co =>
      match co with
      | none => simp [extractableGeom] at h
      | some none => simp [extractableGeom] at h
      | some (some ps) =>
          simp only [extractableGeom] at h
          simp [extractRings, h, geometryRings]
  | other t => rfl
  | untyped => simp [extractableGeom] at h

lemma extractRings_ok_inv (g : Geometry) (rings : List Ring)
    (h : extractRings g = .ok rings) : rings = geometryRings g := by
  cases g with
  | polygon co =>
      match co with
      | none => simp [extractRings] at h
      | some none => simp [extractRings] at h
      | some (some cs) => simp_all [extractRings, geometryRings]
  | multiPolygon co =>
      match co with
      | none => simp [extractRings] at h
      | some none => simp [extractRings] at h
      | some (some ps) =>
          simp only [extractRings] at h
          split at h
          · simp_all [geometryRings]
          · simp at h
  | other t => simp_all [extractRings, geometryRings]
  | untyped => simp [extractRings] at h

lemma checkLoop_eq (shp : ShapeFn) (fs : List Feature)
    (h : ∀ f ∈ fs, extractableGeom f.geometry = true) :
    ∀ acc, checkLoop shp fs acc
      = .ok (acc ++ fs.flatMap
          (fun f => featureAnalyses shp f (geometryRings f.geometry))) := by
  induction fs with
  | nil => intro acc; simp [checkLoop]
  | cons f rest ih =>
      intro acc
      have hf : extractableGeom f.geometry = true := h f (List.mem_cons_self f rest)
      have hrest : ∀ g ∈ rest, extractableGeom g.geometry = true := by
        intro g hg
        exact h g (List.mem_cons_of_mem f hg)
      rw [checkLoop, extractRings_ok f.geometry hf]
      refine (ih hrest (acc ++ featureAnalyses shp f (geometryRings f.geometry))).trans ?_
      simp

/-- `check_winding_and_geometry` in closed form, for documents whose
geometries all carry a `"type"` key. -/
lemma check_eq (shp : ShapeFn) (doc : Doc)
    (h : ∀ f ∈ doc.features.getD [], extractableGeom f.geometry = true) :
    check_winding_and_geometry shp doc
      = .ok ((doc.features.getD []).flatMap
          (fun f => featureAnalyses shp f (geometryRings f.geometry))) := by
  rw [check_winding_and_geometry, checkLoop_eq shp _ h]
  simp

lemma rewind_rings_idem (d : Bool) (rs : List Ring)
    (h : ∀ r ∈ rs, calculate_signed_area r ≠ some 0) :
    rewind_rings d (rewind_rings d rs) = rewind_rings d rs := by
  cases rs with
  | nil => rfl
  | cons outer holes =>
      rw [rewind_rings, rewind_rings, List.map_map]
      congr 1
      · exact rewind_ring_idem d outer
          (Or.inr (h outer (List.mem_cons_self outer holes)))
      · apply List.map_congr_left
        intro r hr
        exact rewind_ring_idem (!d) r
          (Or.inr (h r (List.mem_cons_of_mem outer hr)))

lemma rewind_geometry_idem (d : Bool) (g : Geometry)
    (h : ∀ r ∈ geometryRings g, calculate_signed_area r ≠ some 0) :
    rewind_geometry d (rewind_geometry d g) = rewind_geometry d g := by
  cases g with
  | polygon co =>
      match co with
      | none => rfl
      | some none => rfl
      | some (some cs) =>
          simp only [rewind_geometry]
          exact congrArg (fun x => Geometry.polygon (some (some x)))
            (rewind_rings_idem d cs h)
  | multiPolygon co =>
      match co with
      | none => rfl
      | some none => rfl
      | some (some ps) =>
          simp only [rewind_geometry, List.map_map]
          refine congrArg (fun x => Geometry.multiPolygon (some (some x))) ?_
          apply List.map_congr_left
          intro p hp
          cases p with
          | none => rfl
          | some v =>
              simp only [Function.comp_apply, Option.map_some']
              refine congrArg some (rewind_rings_idem d v ?_)
              intro r hr
              refine h r ?_
              simp only [geometryRings, List.mem_flatten]
              exact ⟨v, List.mem_filterMap.mpr ⟨some v, hp, rfl⟩, hr⟩
  | other t => rfl
  | untyped => rfl

/-- The batch loop in closed form: it processes exactly the items whose
lowercased name ends in `.geojson`, in order. -/
lemma process_batch_eq (shp : ShapeFn) (force_ccw : Bool)
    (items : List BatchItem) :
    process_batch shp force_ccw items
      = ((items.filter (fun it => is_geojson_name it.fname)).filterMap
           (fun it => (process_file shp force_ccw it).1),
         (items.filter (fun it => is_geojson_name it.fname)).map
           (fun it => (process_file shp force_ccw it).2)) := by
  suffices hgen : ∀ (its : List BatchItem) (acc : List (String × Doc) × List String),
      its.foldl
        (fun acc item =>
          if is_geojson_name item.fname then
            (acc.1 ++ (process_file shp force_ccw item).1.toList,
             acc.2 ++ [(process_file shp force_ccw item).2])
          else acc)
        acc
      = (acc.1 ++ (its.filter (fun it => is_geojson_name it.fname)).filterMap
           (fun it => (process_file shp force_ccw it).1),
         acc.2 ++ (its.filter (fun it => is_geojson_name it.fname)).map
           (fun it => (process_file shp force_ccw it).2)) by
    rw [process_batch, hgen]
    simp
  intro its
  induction its with
  | nil => intro acc; simp
  | cons it rest ih =>
      intro acc
      by_cases hc : is_geojson_name it.fname
      · rw [List.foldl_cons, ih]
        cases hp : (process_file shp force_ccw it).1 with
        | none =>
            simp [List.filter_cons, hc, hp, List.filterMap_cons, List.append_assoc]
        | some p =>
            simp [List.filter_cons, hc, hp, List.filterMap_cons, List.append_assoc]
      · rw [List.foldl_cons, ih]
        simp [List.filter_cons, hc]

/-! ### Claims -/

/-- C1: per ring the analyzer computes the signed area by the shoelace
formula `0.5 * Σ_{i=0}^{n-2} (xᵢ·yᵢ₊₁ − xᵢ₊₁·yᵢ)`; the reference square
`[(0,0),(1,0),(1,1),(0,1),(0,0)]` yields signed area `1` and is classified
Counterclockwise, and the same square reversed yields `-1` and is
classified Clockwise. -/
theorem C1_shoelace_signed_area :
    (∀ coords : Ring, unpack_xy_ok coords = true →
      calculate_signed_area coords
        = some ((1/2) * ∑ i in Finset.range (coords.length - 1),
            (xcoord coords i * ycoord coords (i + 1)
              - xcoord coords (i + 1) * ycoord coords i)))
    ∧ calculate_signed_area refSquare = some 1
    ∧ (∀ st : FeatStats, (analyze_ring "p" st refSquare).winding
        = Winding.counterclockwise)
    ∧ calculate_signed_area refSquare.reverse = some (-1)
    ∧ (∀ st : FeatStats, (analyze_ring "p" st refSquare.reverse).winding
        = Winding.clockwise) := by
  have hsq : calculate_signed_area refSquare = some 1 := by
    norm_num [calculate_signed_area, unpack_xy_ok, xcoord, ycoord, refSquare,
      List.range_succ]
  have hsq' : calculate_signed_area refSquare.reverse = some (-1) := by
    norm_num [calculate_signed_area, unpack_xy_ok, xcoord, ycoord, refSquare,
      List.range_succ]
  refine ⟨?_, hsq, ?_, hsq', ?_⟩
  · intro coords h
    rw [calculate_signed_area, if_pos h, sum_range_map]
  · intro st
    rw [analyze_ring, hsq]
    norm_num
  · intro st
    rw [analyze_ring, hsq']
    norm_num

/-- C1 witness: the general shoelace clause applied to the reference
square. -/
theorem C1_shoelace_signed_area_witness :
    unpack_xy_ok refSquare = true
    ∧ calculate_signed_area refSquare
        = some ((1/2) * ∑ i in Finset.range (refSquare.length - 1),
            (xcoord refSquare i * ycoord refSquare (i + 1)
              - xcoord refSquare (i + 1) * ycoord refSquare i)) :=
  ⟨by decide, C1_shoelace_signed_area.1 refSquare (by decide)⟩

/-- C2: the rewind decision is `clockwise > 0` when the desired winding is
counterclockwise and `clockwise < total` when it is clockwise, and a
document with zero rings never needs a rewrite. -/
theorem C2_should_rewind_iff :
    ∀ results : List RingAnalysis,
      (should_rewind true (clockwise_count results) results.length = true
        ↔ 0 < clockwise_count results)
      ∧ (should_rewind false (clockwise_count results) results.length = true
        ↔ clockwise_count results < results.length)
      ∧ (results.length = 0 → ∀ force_ccw,
          should_rewind force_ccw (clockwise_count results) results.length
            = false) := by
  intro results
  refine ⟨by simp [should_rewind], by simp [should_rewind], ?_⟩
  intro h0 force_ccw
  have hres : results = [] := List.length_eq_zero.mp h0
  subst hres
  cases force_ccw <;> simp [should_rewind, clockwise_count]

/-- C2 witness: the zero-ring clause at the empty result list. -/
theorem C2_should_rewind_iff_witness :
    ([] : List RingAnalysis).length = 0
    ∧ should_rewind true (clockwise_count []) ([] : List RingAnalysis).length
        = false :=
  ⟨rfl, (C2_should_rewind_iff []).2.2 rfl true⟩

/-- C3: for a ring whose signed area is computed, the classification is
Counterclockwise exactly when the signed area is strictly positive, and
Clockwise otherwise; a signed area of exactly `0` yields Clockwise, not
Unknown. -/
theorem C3_classification :
    ∀ (props : String) (st : FeatStats) (ring : Ring) (a : ℚ),
      calculate_signed_area ring = some a →
      ((analyze_ring props st ring).winding
        = (if 0 < a then Winding.counterclockwise else Winding.clockwise))
      ∧ (a = 0 → (analyze_ring props st ring).winding = Winding.clockwise
          ∧ (analyze_ring props st ring).winding ≠ Winding.unknown) := by
  intro props st ring a h
  rw [analyze_ring, h]
  constructor
  · simp [gt_iff_lt]
  · intro ha
    subst ha
    norm_num
    decide

/-- C3 witness: the zero-area collinear ring is classified Clockwise. -/
theorem C3_classification_witness :
    calculate_signed_area zeroAreaRing = some 0
    ∧ (analyze_ring "p" ⟨true, "Valid", 0, 0⟩ zeroAreaRing).winding
        = Winding.clockwise := by
  have h0 : calculate_signed_area zeroAreaRing = some 0 := by
    norm_num [calculate_signed_area, unpack_xy_ok, xcoord, ycoord, zeroAreaRing,
      List.range_succ]
  exact ⟨h0, ((C3_classification "p" ⟨true, "Valid", 0, 0⟩ zeroAreaRing 0 h0).2
    rfl).1⟩

/-- C4 counterexample: a ring with a single 2D point — fewer than 2 points,
fewer than 4 points, and all points identical — does NOT make the
signed-area computation fail: `zip(*coords)` unpacks, the sum over
`range(0)` is `0`, and the ring is classified Clockwise with the
feature-level validity values, not Unknown / "Error calculating area". -/
theorem C4_degenerate_counterexample :
    check_winding_and_geometry shapeTriv ⟨some [⟨.polygon (some (some [[[0, 0]]])), "p"⟩]⟩
      = .ok [⟨"p", .clockwise, true, "Valid", 0, 0⟩] := by
  norm_num [check_winding_and_geometry, checkLoop, extractRings, featureAnalyses,
    analyze_ring, featureStats, shapeTriv, calculate_signed_area, unpack_xy_ok,
    xcoord, ycoord]

/-- C4 amended: the signed-area computation fails exactly when the
`x, y = zip(*coords)` unpack fails — the ring is empty or its minimum
point arity is not 2 — and every such ring is recorded as Unknown,
`valid = false`, message "Error calculating area", area and length `0`;
sibling rings of the same feature are still processed (here the empty
ring fails while the reference square beside it is analyzed normally).
Degenerate rings that keep at least one 2-entry point (a single point,
fewer than 4 points, all points identical) succeed with signed area `0`
instead. -/
theorem C4_unknown_on_failure :
    (∀ (props : String) (st : FeatStats) (ring : Ring),
      calculate_signed_area ring = none →
        analyze_ring props st ring
          = ⟨props, .unknown, false, "Error calculating area", 0, 0⟩)
    ∧ (∀ ring : Ring, calculate_signed_area ring = none
        ↔ unpack_xy_ok ring = false)
    ∧ check_winding_and_geometry shapeTriv
        ⟨some [⟨.polygon (some (some [[], refSquare])), "p"⟩]⟩
      = .ok [⟨"p", .unknown, false, "Error calculating area", 0, 0⟩,
             ⟨"p", .counterclockwise, true, "Valid", 0, 0⟩] := by
  refine ⟨?_, ?_, ?_⟩
  · intro props st ring h
    rw [analyze_ring, h]
  · intro ring
    rw [calculate_signed_area]
    by_cases h : unpack_xy_ok ring <;> simp [h]
  · norm_num [check_winding_and_geometry, checkLoop, extractRings,
      featureAnalyses, analyze_ring, featureStats, shapeTriv,
      calculate_signed_area, unpack_xy_ok, xcoord, ycoord, refSquare,
      List.range_succ]

/-- C4 witness: the failure clause applied to the empty ring. -/
theorem C4_unknown_on_failure_witness :
    calculate_signed_area ([] : Ring) = none
    ∧ analyze_ring "p" ⟨true, "Valid", 0, 0⟩ ([] : Ring)
        = ⟨"p", .unknown, false, "Error calculating area", 0, 0⟩ :=
  ⟨by decide, C4_unknown_on_failure.1 "p" ⟨true, "Valid", 0, 0⟩ [] (by decide)⟩

/-- C5: ring extraction takes a Polygon's rings directly, concatenates all
rings of a MultiPolygon's polygons in document order, and the analyzer
emits exactly one RingAnalysis per extracted ring — feature order first,
ring order within each feature. -/
theorem C5_ring_extraction_order :
    (∀ cs, extractRings (.polygon (some (some cs))) = .ok cs)
    ∧ (∀ ps : List (List Ring),
        extractRings (.multiPolygon (some (some (ps.map (fun p => some p)))))
          = .ok ps.flatten)
    ∧ (∀ (shp : ShapeFn) (doc : Doc),
        (∀ f ∈ doc.features.getD [], extractableGeom f.geometry = true) →
        check_winding_and_geometry shp doc
          = .ok ((doc.features.getD []).flatMap
              (fun f => (geometryRings f.geometry).map
                (analyze_ring f.properties (featureStats shp f.geometry))))) := by
  refine ⟨fun cs => rfl, ?_, ?_⟩
  · intro ps
    simp [extractRings, List.all_map, List.filterMap_map, Function.comp_def,
      List.filterMap_some]
  · intro shp doc h
    rw [check_eq shp doc h]
    rfl

/-- C5 witness: the closed form at a two-feature document (one Polygon,
one MultiPolygon). -/
theorem C5_ring_extraction_order_witness :
    (∀ f ∈ (Doc.mk (some [⟨.polygon (some (some [refSquare])), "a"⟩,
        ⟨.multiPolygon (some (some [some [zeroAreaRing], some [refSquare]])), "b"⟩])).features.getD [],
      extractableGeom f.geometry = true)
    ∧ check_winding_and_geometry shapeTriv
        ⟨some [⟨.polygon (some (some [refSquare])), "a"⟩,
          ⟨.multiPolygon (some (some [some [zeroAreaRing], some [refSquare]])), "b"⟩]⟩
      = .ok (((Doc.mk (some [⟨.polygon (some (some [refSquare])), "a"⟩,
          ⟨.multiPolygon (some (some [some [zeroAreaRing], some [refSquare]])), "b"⟩])).features.getD
            []).flatMap
          (fun f => (geometryRings f.geometry).map
            (analyze_ring f.properties (featureStats shapeTriv f.geometry)))) :=
  ⟨by decide, C5_ring_extraction_order.2.2 shapeTriv
    ⟨some [⟨.polygon (some (some [refSquare])), "a"⟩,
      ⟨.multiPolygon (some (some [some [zeroAreaRing], some [refSquare]])), "b"⟩]⟩ (by decide)⟩

/-- C6 counterexample: `rewind` is not idempotent.  A collinear ring has
signed area exactly `0`, so it is classified Clockwise; when its slot
demands counterclockwise it is reversed on every application (reversal
keeps the area `0`), and applying the transform twice undoes the first
reversal instead of being a no-op. -/
theorem C6_rewind_not_idempotent_on_zero_area :
    rewind (rewind ⟨some [⟨.polygon (some (some [zeroAreaRing])), "p"⟩]⟩ true) true
      ≠ rewind ⟨some [⟨.polygon (some (some [zeroAreaRing])), "p"⟩]⟩ true := by
  norm_num [rewind, rewind_geometry, rewind_rings, rewind_ring,
    calculate_signed_area, unpack_xy_ok, xcoord, ycoord, zeroAreaRing,
    List.range_succ]

/-- C6 amended: `rewind` is idempotent for every fixed direction on every
document none of whose rings has signed area exactly `0` (a zero-area
ring whose slot demands counterclockwise orientation is re-reversed by
every application, which is the only way idempotence can fail). -/
theorem C6_rewind_idempotent :
    ∀ (d : Bool) (doc : Doc),
      (∀ r ∈ docRings doc, calculate_signed_area r ≠ some 0) →
      rewind (rewind doc d) d = rewind doc d := by
  intro d doc h
  cases hf : doc.features with
  | none => simp [rewind, hf]
  | some fs =>
      simp only [rewind, hf, Option.map_some', List.map_map]
      refine congrArg (fun x => Doc.mk (some x)) ?_
      apply List.map_congr_left
      intro f hfm
      have hg : rewind_geometry d (rewind_geometry d f.geometry)
          = rewind_geometry d f.geometry := by
        apply rewind_geometry_idem
        intro r hr
        apply h
        rw [docRings, hf]
        simp only [Option.getD_some]
        exact List.mem_flatMap.mpr ⟨f, hfm, hr⟩
      simp [Function.comp, hg]

/-- C6 witness: idempotence at a one-feature document whose sole ring is
the reference square. -/
theorem C6_rewind_idempotent_witness :
    (∀ r ∈ docRings ⟨some [⟨.polygon (some (some [refSquare])), "p"⟩]⟩,
      calculate_signed_area r ≠ some 0)
    ∧ rewind (rewind ⟨some [⟨.polygon (some (some [refSquare])), "p"⟩]⟩ true) true
        = rewind ⟨some [⟨.polygon (some (some [refSquare])), "p"⟩]⟩ true := by
  have h : ∀ r ∈ docRings ⟨some [⟨.polygon (some (some [refSquare])), "p"⟩]⟩,
      calculate_signed_area r ≠ some 0 := by
    intro r hr
    simp only [docRings, geometryRings, Option.getD_some, List.flatMap_cons,
      List.flatMap_nil, List.append_nil, List.mem_singleton] at hr
    subst hr
    norm_num [calculate_signed_area, unpack_xy_ok, xcoord, ycoord, refSquare,
      List.range_succ]
  exact ⟨h, C6_rewind_idempotent true _ h⟩

/-- C7 counterexample: the core analysis CAN raise.  A feature whose
geometry mapping has no `"type"` key — in particular a feature with no
geometry at all, for which `feature.get("geometry", {})` yields `{}` —
makes line 63's `geom["type"]` raise `KeyError`, aborting the whole
analysis instead of recording a per-feature error value. -/
theorem C7_raises_on_untyped_geometry :
    check_winding_and_geometry shapeTriv ⟨some [⟨.untyped, "p"⟩]⟩
      = .error "KeyError: type" := rfl

/-- C7 amended: the analysis never raises exactly on documents whose
features' geometries are extractable — the geometry mapping carries a
`"type"` key and, for Polygon / MultiPolygon, a `"coordinates"` key
holding an iterable (whose members, for MultiPolygon, are iterable
too); under that proviso every geometry-construction failure is recorded
per feature as `valid = false` with the exception's message and all
features are still processed.  Outside it the analysis raises uncaught:
a missing `"type"` key raises `KeyError` (line 63, the counterexample),
a typed geometry without `"coordinates"` raises `KeyError` (lines
64/66), and a non-iterable coordinates value raises `TypeError` (lines
66-69), each aborting the whole document's analysis. -/
theorem C7_total_when_extractable :
    ∀ (shp : ShapeFn) (doc : Doc),
      ((∀ f ∈ doc.features.getD [], extractableGeom f.geometry = true) →
        (∃ results, check_winding_and_geometry shp doc = .ok results)
        ∧ (∀ (g : Geometry) (e : String), shp g = .error e →
            featureStats shp g = ⟨false, e, 0, 0⟩))
      ∧ check_winding_and_geometry shp ⟨some [⟨.polygon none, "p"⟩]⟩
          = .error "KeyError: coordinates"
      ∧ check_winding_and_geometry shp
          ⟨some [⟨.multiPolygon (some none), "p"⟩]⟩
          = .error "TypeError: not iterable" := by
  intro shp doc
  refine ⟨fun h => ⟨⟨_, check_eq shp doc h⟩, ?_⟩, rfl, rfl⟩
  intro g e he
  rw [featureStats, he]

/-- C7 witness: the no-raise clause at an extractable document under the
failing shapely oracle. -/
theorem C7_total_when_extractable_witness :
    (∀ f ∈ (Doc.mk (some [⟨.polygon (some (some [refSquare])), "p"⟩])).features.getD [],
      extractableGeom f.geometry = true)
    ∧ (∃ results, check_winding_and_geometry shapeErr
        ⟨some [⟨.polygon (some (some [refSquare])), "p"⟩]⟩ = .ok results) :=
  ⟨by decide,
   ((C7_total_when_extractable shapeErr
      ⟨some [⟨.polygon (some (some [refSquare])), "p"⟩]⟩).1 (by decide)).1⟩

/-- C8 counterexample: a document that parses but lacks a `features` list
is NOT surfaced as an error — the batch loop silently processes it as an
empty document and logs `"... 0 clockwise, 0 invalid, unchanged"`. -/
theorem C8_missing_features_silent :
    process_batch shapeTriv true [⟨"nofeat.geojson", .ok ⟨none⟩⟩]
      = ([("nofeat_Counterclockwise.geojson", ⟨none⟩)],
         ["nofeat.geojson: 0 clockwise, 0 invalid, unchanged"]) := by
  decide

/-- C8 amended: a document whose text fails to parse surfaces a
per-document `"<fname>: ERROR - <msg>"` log line and does not abort the
batch (every filtered file still contributes its own line); but a
document that parses and merely lacks a `features` list is silently
analyzed as an empty document rather than surfaced as an error. -/
theorem C8_parse_errors_surfaced :
    ∀ (shp : ShapeFn) (force_ccw : Bool) (items : List BatchItem)
      (it : BatchItem) (e : String),
      it ∈ items → it.parsed = .error e → is_geojson_name it.fname = true →
      ((it.fname ++ ": ERROR - " ++ e) ∈ (process_batch shp force_ccw items).2
       ∧ (process_batch shp force_ccw items).2
           = (items.filter (fun i => is_geojson_name i.fname)).map
               (fun i => (process_file shp force_ccw i).2)
       ∧ (∀ doc : Doc, doc.features = none →
           check_winding_and_geometry shp doc = .ok [])) := by
  intro shp fccw items it e hmem hparse hname
  have hline : (process_file shp fccw it).2 = it.fname ++ ": ERROR - " ++ e := by
    simp only [process_file, hparse]
  refine ⟨?_, ?_, ?_⟩
  · rw [process_batch_eq, ← hline]
    exact List.mem_map_of_mem _ (List.mem_filter.mpr ⟨hmem, hname⟩)
  · rw [process_batch_eq]
  · intro doc hd
    rw [check_winding_and_geometry, hd]
    rfl

/-- C8 witness: a single unparseable file produces its ERROR line. -/
theorem C8_parse_errors_surfaced_witness :
    (⟨"bad.geojson", .error "Expecting value"⟩ : BatchItem)
        ∈ [(⟨"bad.geojson", .error "Expecting value"⟩ : BatchItem)]
    ∧ ("bad.geojson" ++ ": ERROR - " ++ "Expecting value")
        ∈ (process_batch shapeTriv true
            [⟨"bad.geojson", .error "Expecting value"⟩]).2 :=
  ⟨List.mem_singleton.mpr rfl,
   (C8_parse_errors_surfaced shapeTriv true _ _ "Expecting value"
     (List.mem_singleton.mpr rfl) rfl (by decide)).1⟩

/-- C9 counterexample: `"DATA.GEOJSON"` passes the case-insensitive
`.geojson` filter, but `str.replace` is case-sensitive, so the "output
filename" is the input filename unchanged — the desired-winding label is
NOT inserted before the extension. -/
theorem C9_output_name_counterexample :
    process_batch shapeTriv true [⟨"DATA.GEOJSON", .ok ⟨none⟩⟩]
      = ([("DATA.GEOJSON", ⟨none⟩)],
         ["DATA.GEOJSON: 0 clockwise, 0 invalid, unchanged"])
    ∧ ("DATA.GEOJSON" : String) ≠ "DATA_Counterclockwise.GEOJSON" := by
  exact ⟨by decide, by decide⟩

/-- C9 amended: every processed file (lowercased name ending in
`.geojson`) contributes exactly one log line, of the stated success or
ERROR form, in order; the output filename is the input filename with
every occurrence of the case-sensitive substring `".geojson"` replaced by
`"_<label>.geojson"` (Python `str.replace`) — which equals inserting the
label before the extension for names like `"data.geojson"` whose only
occurrence is the final extension, but leaves uppercase-extension names
unchanged. -/
theorem C9_log_lines_and_names :
    ∀ (shp : ShapeFn) (force_ccw : Bool) (items : List BatchItem),
      (process_batch shp force_ccw items).2
        = (items.filter (fun it => is_geojson_name it.fname)).map
            (fun it => (process_file shp force_ccw it).2)
      ∧ (∀ it : BatchItem,
          (∃ e, (process_file shp force_ccw it).2
              = it.fname ++ ": ERROR - " ++ e)
          ∨ (∃ cw inv sr d,
              (process_file shp force_ccw it).2 = log_line_ok it.fname cw inv sr
              ∧ (process_file shp force_ccw it).1
                  = some (out_name force_ccw it.fname, d)))
      ∧ out_name true "data.geojson" = "data_Counterclockwise.geojson" := by
  intro shp fccw items
  refine ⟨by rw [process_batch_eq], ?_, by decide⟩
  intro it
  rcases hp : it.parsed with e | data
  · exact Or.inl ⟨e, by simp only [process_file, hp]⟩
  · rcases hc : check_winding_and_geometry shp data with e | results
    · exact Or.inl ⟨e, by simp only [process_file, hp, hc]⟩
    · refine Or.inr ⟨clockwise_count results, invalid_count results,
        should_rewind fccw (clockwise_count results) results.length,
        (if should_rewind fccw (clockwise_count results) results.length then
          rewind data fccw else data),
        by simp only [process_file, hp, hc], by simp only [process_file, hp, hc]⟩

/-- Inversion for the analyzer loop: every produced record comes from the
accumulator or from some feature's ring, via `analyze_ring` with that
feature's stats. -/
lemma checkLoop_ok_mem (shp : ShapeFn) :
    ∀ (fs : List Feature) (acc results : List RingAnalysis),
      checkLoop shp fs acc = .ok results →
      ∀ a ∈ results, a ∈ acc ∨ ∃ f ∈ fs, ∃ r ∈ geometryRings f.geometry,
        a = analyze_ring f.properties (featureStats shp f.geometry) r := by
  intro fs
  induction fs with
  | nil =>
      intro acc results h a ha
      rw [checkLoop] at h
      cases h
      exact Or.inl ha
  | cons f rest ih =>
      intro acc results h a ha
      rw [checkLoop] at h
      cases hext : extractRings f.geometry with
      | error e => rw [hext] at h; cases h
      | ok rings =>
          rw [hext] at h
          rcases ih _ _ h a ha with hacc | ⟨f', hf', hrest⟩
          · rcases List.mem_append.mp hacc with h1 | h2
            · exact Or.inl h1
            · right
              have hre : rings = geometryRings f.geometry :=
                extractRings_ok_inv _ _ hext
              subst hre
              rcases List.mem_map.mp h2 with ⟨r, hr, hae⟩
              exact ⟨f, List.mem_cons_self f rest, r, hr, hae.symm⟩
          · exact Or.inr ⟨f', List.mem_cons_of_mem f hf', hrest⟩

/-- C10: every record the analyzer produces belongs to some feature of the
document and — unless its own ring's area computation failed, in which
case it is the fixed Unknown record — carries exactly that feature's
once-computed validity flag, validity message, area and length, so all
non-Unknown records of one feature agree on those four fields. -/
theorem C10_feature_stats_replicated :
    ∀ (shp : ShapeFn) (doc : Doc) (results : List RingAnalysis),
      check_winding_and_geometry shp doc = .ok results →
      ∀ a ∈ results, ∃ f ∈ doc.features.getD [],
        ((a.winding ≠ Winding.unknown →
            a.properties = f.properties
            ∧ a.valid = (featureStats shp f.geometry).valid
            ∧ a.validity_msg = (featureStats shp f.geometry).validity_msg
            ∧ a.area = (featureStats shp f.geometry).area
            ∧ a.length = (featureStats shp f.geometry).length)
         ∧ (a.winding = Winding.unknown →
            a = ⟨f.properties, .unknown, false, "Error calculating area",
                 0, 0⟩)) := by
  intro shp doc results h a ha
  rcases checkLoop_ok_mem shp (doc.features.getD []) [] results h a ha with
    hacc | ⟨f, hf, r, hr, hae⟩
  · simp at hacc
  · refine ⟨f, hf, ?_, ?_⟩
    · intro hw
      subst hae
      cases hc : calculate_signed_area r with
      | none =>
          rw [analyze_ring, hc] at hw
          simp at hw
      | some v =>
          rw [analyze_ring, hc]
          exact ⟨rfl, rfl, rfl, rfl, rfl⟩
    · intro hw
      subst hae
      cases hc : calculate_signed_area r with
      | none => rw [analyze_ring, hc]
      | some v =>
          rw [analyze_ring, hc] at hw
          exfalso
          by_cases hv : v > 0 <;> simp [hv] at hw

/-- C10 witness: the replication property at a concrete document whose
shapely construction raises. -/
theorem C10_feature_stats_replicated_witness :
    ∃ f ∈ docW.features.getD [],
      ((recW.winding ≠ Winding.unknown →
          recW.properties = f.properties
          ∧ recW.valid = (featureStats shapeErr f.geometry).valid
          ∧ recW.validity_msg = (featureStats shapeErr f.geometry).validity_msg
          ∧ recW.area = (featureStats shapeErr f.geometry).area
          ∧ recW.length = (featureStats shapeErr f.geometry).length)
       ∧ (recW.winding = Winding.unknown →
          recW = ⟨f.properties, .unknown, false, "Error calculating area",
                  0, 0⟩)) :=
  C10_feature_stats_replicated shapeErr docW [recW]
    (by
      norm_num [check_winding_and_geometry, checkLoop, extractRings,
        featureAnalyses, analyze_ring, featureStats, shapeErr, docW, recW,
        calculate_signed_area, unpack_xy_ok, xcoord, ycoord, refSquare,
        List.range_succ])
    recW (List.mem_singleton.mpr rfl)

end GeojsonRewind
